import Mathlib

/-!
Shallow embedding of the SwiftMQuickJS native-call bridge
(Sources/CMQuickJS/mqjs_bridge.c) and proofs about its
callback-dispatch protocol.

JSValue is modelled as an inductive covering the value shapes the bridge
itself constructs or inspects; the engine context carries the context
pointer slot (the C `opaque` pointer, named `opaquePtr` here because the
C name is a Lean keyword) and the pending-exception slot that `JS_Throw*`
writes. Machine `int32_t` values are modelled as `Int` wrapped through
`toInt32`.
-/

/-- Pointers (such as the context `void *` state pointer) are modelled as
naturals. -/
abbrev Ptr := Nat

/-- Two's-complement wrap of an integer into the `int32_t` range. -/
def toInt32 (n : Int) : Int := (n + 2 ^ 31) % 2 ^ 32 - 2 ^ 31

/-- Kinds of engine exceptions the bridge throws. -/
inductive ErrorKind where
  | internalError
  | referenceError
deriving DecidableEq

/-- A pending engine exception: its kind and message. -/
structure JSError where
  kind : ErrorKind
  message : String
deriving DecidableEq

/-- Engine values, restricted to the shapes the bridge constructs or
inspects. `cfunction` is a C-function value with a table index and a bound
params value, as produced by `JS_NewCFunctionParams`. `exception` is the
`JS_EXCEPTION` sentinel returned by throwing helpers. -/
inductive JSValue where
  | undefined
  | null
  | bool (b : Bool)
  | int (n : Int)
  | exception
  | cfunction (funcIdx : Int) (params : JSValue)
deriving DecidableEq

/-- The engine context state visible to the bridge: the context state
pointer slot (C name `opaque`) and the pending exception written by
`JS_Throw*`. -/
structure JSContext where
  opaquePtr : Ptr
  pendingException : Option JSError
deriving DecidableEq

/-- Engine primitive `JS_NewInt32`: builds an int value from an `int32_t`. -/
def JS_NewInt32 (ctx : JSContext) (n : Int) : JSValue := JSValue.int (toInt32 n)

/-- Engine primitive `JS_ToInt32`: numeric coercion to `int32_t`.
Int values wrap modulo 2^32; booleans coerce to 0/1; other modelled
shapes coerce to 0 (NaN-like). -/
def JS_ToInt32 : JSValue → Int
  | JSValue.int n => toInt32 n
  | JSValue.bool b => if b then 1 else 0
  | _ => 0

/-- Engine primitive `JS_ThrowInternalError`: records a pending
internal-error exception on the context and returns `JS_EXCEPTION`. -/
def JS_ThrowInternalError (ctx : JSContext) (msg : String) : JSValue × JSContext :=
  (JSValue.exception, { ctx with pendingException := some ⟨ErrorKind.internalError, msg⟩ })

/-- Engine primitive `JS_ThrowReferenceError`: records a pending
reference-error exception on the context and returns `JS_EXCEPTION`. -/
def JS_ThrowReferenceError (ctx : JSContext) (msg : String) : JSValue × JSContext :=
  (JSValue.exception, { ctx with pendingException := some ⟨ErrorKind.referenceError, msg⟩ })

/-- Engine primitive `JS_GetContextOpaquePtr` (C name `JS_GetContextOpaque`):
reads the context state pointer slot. -/
def JS_GetContextOpaquePtr (ctx : JSContext) : Ptr := ctx.opaquePtr

/-- Engine primitive `JS_SetContextOpaquePtr` (C name `JS_SetContextOpaque`):
writes the context state pointer slot. -/
def JS_SetContextOpaquePtr (ctx : JSContext) (p : Ptr) : JSContext :=
  { ctx with opaquePtr := p }

/-- Engine primitive `JS_NewCFunctionParams`: builds a C-function value from
a function-table index and a bound params value. -/
def JS_NewCFunctionParams (funcIdx : Int) (params : JSValue) : JSValue :=
  JSValue.cfunction funcIdx params

/-- The Swift-side callback type from mqjs_bridge.c lines 30-31:
`JSValue (*)(void *opaque, int32_t function_id, int argc, JSValue *argv)`.
Note it has exactly four parameters and no receiver parameter. -/
abbrev MQJSNativeCallback := Ptr → Int → Nat → List JSValue → JSValue

/-- `get_function_id_from_params` from mqjs_bridge.c lines 42-47:
coerces the params value to `int32_t` via `JS_ToInt32`. -/
def get_function_id_from_params (ctx : JSContext) (params : JSValue) : Int :=
  JS_ToInt32 params

/-- `mqjs_set_native_callback` from mqjs_bridge.c lines 37-39: the new value
of the global slot `g_native_callback` is the argument, unconditionally
(a NULL argument is representable as `none`). -/
def mqjs_set_native_callback (g_native_callback : Option MQJSNativeCallback)
    (callback : Option MQJSNativeCallback) : Option MQJSNativeCallback :=
  callback

/-- Control-flow events of one trampoline invocation, in execution order:
the NULL check on the global callback slot, the identifier decode, the
context-pointer read, and the dispatch to the callback. -/
inductive TrEvent where
  | checkCallback
  | decodeId
  | readOpaquePtr
  | dispatch
deriving DecidableEq

/-- One dispatch to the native callback, recording exactly the four
arguments the C callback type carries. -/
structure DispatchCall where
  opaquePtr : Ptr
  function_id : Int
  argc : Nat
  argv : List JSValue
deriving DecidableEq

/-- Result of one trampoline invocation: the returned value, the context
after the call, the list of callback dispatches performed, and the
control-flow events in execution order. -/
structure TrampResult where
  ret : JSValue
  ctx : JSContext
  calls : List DispatchCall
  events : List TrEvent

/-- `js_swift_trampoline` from mqjs_bridge.c lines 171-186. It first checks
the global callback slot and throws "Native callback not initialized" when
NULL; otherwise it decodes the function id from params, reads the context
state pointer, and calls the callback with (opaque, func_id, argc, argv). -/
def js_swift_trampoline (g_native_callback : Option MQJSNativeCallback)
    (ctx : JSContext) (this_val : JSValue) (argc : Nat) (argv : List JSValue)
    (params : JSValue) : TrampResult :=
  match g_native_callback with
  | none =>
      let r := JS_ThrowInternalError ctx "Native callback not initialized"
      { ret := r.1, ctx := r.2, calls := [], events := [TrEvent.checkCallback] }
  | some cb =>
      let func_id := get_function_id_from_params ctx params
      let p := JS_GetContextOpaquePtr ctx
      { ret := cb p func_id argc argv
        ctx := ctx
        calls := [⟨p, func_id, argc, argv⟩]
        events := [TrEvent.checkCallback, TrEvent.decodeId, TrEvent.readOpaquePtr,
          TrEvent.dispatch] }

/-- `mqjs_get_swift_trampoline_index` from mqjs_bridge.c lines 189-192. -/
def mqjs_get_swift_trampoline_index : Int := 147

/-- `mqjs_new_native_function` from mqjs_bridge.c lines 195-202: builds the
params value with `JS_NewInt32` and mints the C function at the trampoline
index with `JS_NewCFunctionParams`. -/
def mqjs_new_native_function (ctx : JSContext) (function_id : Int) : JSValue :=
  let params := JS_NewInt32 ctx function_id
  let trampoline_idx := mqjs_get_swift_trampoline_index
  JS_NewCFunctionParams trampoline_idx params

/-- `mqjs_get_context_opaque_ptr` (C name `mqjs_get_context_opaque`) from
mqjs_bridge.c lines 205-207. -/
def mqjs_get_context_opaque_ptr (ctx : JSContext) : Ptr :=
  JS_GetContextOpaquePtr ctx

/-- `mqjs_set_context_opaque_ptr` (C name `mqjs_set_context_opaque`) from
mqjs_bridge.c lines 210-212. -/
def mqjs_set_context_opaque_ptr (ctx : JSContext) (p : Ptr) : JSContext :=
  JS_SetContextOpaquePtr ctx p

/-- `js_load` from mqjs_bridge.c lines 124-128. -/
def js_load (ctx : JSContext) (this_val : JSValue) (argc : Nat)
    (argv : List JSValue) : JSValue × JSContext :=
  JS_ThrowReferenceError ctx "load() not supported"

/-- `js_setTimeout` from mqjs_bridge.c lines 131-135. -/
def js_setTimeout (ctx : JSContext) (this_val : JSValue) (argc : Nat)
    (argv : List JSValue) : JSValue × JSContext :=
  JS_ThrowReferenceError ctx "setTimeout() not supported"

/-- `js_clearTimeout` from mqjs_bridge.c lines 138-142. -/
def js_clearTimeout (ctx : JSContext) (this_val : JSValue) (argc : Nat)
    (argv : List JSValue) : JSValue × JSContext :=
  JS_ThrowReferenceError ctx "clearTimeout() not supported"

/-- Function-table index of a C-function value, when the value is one. -/
def funcIdxOf : JSValue → Option Int
  | JSValue.cfunction i _ => some i
  | _ => none

/-- Bound params value of a C-function value, when the value is one. -/
def paramsOf : JSValue → Option JSValue
  | JSValue.cfunction _ p => some p
  | _ => none

/-- Bridge-visible system state: the global callback slot and one context. -/
structure SysState where
  g_native_callback : Option MQJSNativeCallback
  ctx : JSContext

/-- Operations the bridge offers that touch bridge-visible state. -/
inductive Op where
  | setCallback (cb : Option MQJSNativeCallback)
  | setOpaquePtr (p : Ptr)
  | mint (function_id : Int)
  | invoke (this_val : JSValue) (argc : Nat) (argv : List JSValue) (params : JSValue)

/-- Whether an operation is a write to the context state pointer slot. -/
def Op.writesOpaquePtr : Op → Bool
  | Op.setOpaquePtr _ => true
  | _ => false

/-- Whether an operation is `mqjs_set_native_callback(NULL)`. -/
def Op.resetsCallback : Op → Bool
  | Op.setCallback cb => cb.isNone
  | _ => false

/-- Output of running one bridge operation: the next state, the value
returned to the caller (when the operation returns one), and the callback
dispatches it performed. -/
structure StepOut where
  state : SysState
  ret : Option JSValue
  calls : List DispatchCall

/-- Semantics of one bridge operation, transcribed from the C functions:
`setCallback` stores via `mqjs_set_native_callback`, `setOpaquePtr` stores
via `mqjs_set_context_opaque_ptr`, `mint` calls `mqjs_new_native_function`
(which touches neither the slot nor the context pointer), `invoke` runs
`js_swift_trampoline`. -/
def runOp (s : SysState) : Op → StepOut
  | Op.setCallback cb =>
      ⟨{ s with g_native_callback := mqjs_set_native_callback s.g_native_callback cb },
        none, []⟩
  | Op.setOpaquePtr p =>
      ⟨{ s with ctx := mqjs_set_context_opaque_ptr s.ctx p }, none, []⟩
  | Op.mint function_id =>
      ⟨s, some (mqjs_new_native_function s.ctx function_id), []⟩
  | Op.invoke this_val argc argv params =>
      let r := js_swift_trampoline s.g_native_callback s.ctx this_val argc argv params
      ⟨{ s with ctx := r.ctx }, some r.ret, r.calls⟩

/-- Run a sequence of bridge operations, threading the state. -/
def runOps (s : SysState) : List Op → SysState
  | [] => s
  | op :: rest => runOps (runOp s op).state rest

/-- One dispatch as the spec describes it: a five-tuple including the call
receiver as the final component. -/
structure DispatchCallSpec where
  opaquePtr : Ptr
  function_id : Int
  argc : Nat
  argv : List JSValue
  receiver : JSValue
deriving DecidableEq

/-- Dispatches of one trampoline invocation as the spec describes them,
written from the spec sentence "invoke the Dispatch Callback with (opaque
pointer, identifier, argument count, argument array, receiver)"; used to
compare the spec tuple against the code tuple. -/
def js_swift_trampoline_specCalls (g_native_callback : Option MQJSNativeCallback)
    (ctx : JSContext) (this_val : JSValue) (argc : Nat) (argv : List JSValue)
    (params : JSValue) : List DispatchCallSpec :=
  match g_native_callback with
  | none => []
  | some _ =>
      [⟨JS_GetContextOpaquePtr ctx, get_function_id_from_params ctx params, argc, argv,
        this_val⟩]

/-- A concrete callback used for closed instances. -/
def cb0 : MQJSNativeCallback := fun _ _ _ _ => JSValue.undefined

/-- A concrete context with state pointer 5 and no pending exception. -/
def ctx0 : JSContext := { opaquePtr := 5, pendingException := none }

/-- A concrete state whose callback slot is registered. -/
def registered0 : SysState := { g_native_callback := some cb0, ctx := ctx0 }

/-- A concrete state whose callback slot is unregistered. -/
def sys0 : SysState := { g_native_callback := none, ctx := ctx0 }

/- ========================================================================
Helper lemmas
======================================================================== -/

/-- Wrapping an in-range `int32_t` is the identity. -/
theorem toInt32_eq_self (i : Int) (h1 : -(2 ^ 31) ≤ i) (h2 : i < 2 ^ 31) :
    toInt32 i = i := by
  unfold toInt32
  omega

/-- The trampoline never writes the context state pointer slot. -/
theorem trampoline_preserves_ptr (g : Option MQJSNativeCallback)
    (ctx : JSContext) (this_val : JSValue) (argc : Nat) (argv : List JSValue)
    (params : JSValue) :
    (js_swift_trampoline g ctx this_val argc argv params).ctx.opaquePtr
      = ctx.opaquePtr := by
  cases g <;> rfl

/-- An operation that is not a write to the state pointer slot leaves it
unchanged. -/
theorem runOp_preserves_ptr (s : SysState) (op : Op)
    (h : op.writesOpaquePtr = false) :
    (runOp s op).state.ctx.opaquePtr = s.ctx.opaquePtr := by
  cases op with
  | setCallback cb => rfl
  | setOpaquePtr p => simp [Op.writesOpaquePtr] at h
  | mint function_id => rfl
  | invoke this_val argc argv params =>
      exact trampoline_preserves_ptr s.g_native_callback s.ctx this_val argc argv params

/-- An operation that is not `setCallback NULL` keeps the slot registered. -/
theorem runOp_preserves_registered (s : SysState) (op : Op)
    (hreg : s.g_native_callback.isSome = true)
    (h : op.resetsCallback = false) :
    (runOp s op).state.g_native_callback.isSome = true := by
  cases op with
  | setCallback cb =>
      cases cb with
      | none => simp [Op.resetsCallback] at h
      | some c => rfl
  | setOpaquePtr p => exact hreg
  | mint function_id => exact hreg
  | invoke this_val argc argv params => exact hreg

/-- Running operations that never write the state pointer slot leaves it
unchanged. -/
theorem runOps_preserves_ptr (ops : List Op) (t : SysState)
    (hall : ops.all (fun op => !op.writesOpaquePtr) = true) :
    (runOps t ops).ctx.opaquePtr = t.ctx.opaquePtr := by
  induction ops generalizing t with
  | nil => rfl
  | cons op rest ih =>
      rw [List.all_cons] at hall
      have hop : op.writesOpaquePtr = false := by
        have := (Bool.and_eq_true _ _).mp hall
        simpa using this.1
      have hrest : rest.all (fun op => !op.writesOpaquePtr) = true :=
        ((Bool.and_eq_true _ _).mp hall).2
      calc (runOps (runOp t op).state rest).ctx.opaquePtr
          = (runOp t op).state.ctx.opaquePtr := ih (runOp t op).state hrest
        _ = t.ctx.opaquePtr := runOp_preserves_ptr t op hop

/- ========================================================================
Claim theorems
======================================================================== -/

/-- Claim C1, counterexample: the claim says the callback is passed the call
receiver as the final argument. In the code, two invocations identical
except for the receiver produce the same dispatch record (the C callback
type has no receiver parameter), while the spec five-tuples differ; so the
receiver is not among the data passed to the callback. -/
theorem C1_receiver_not_forwarded :
    (js_swift_trampoline (some cb0) ctx0 JSValue.null 0 [] (JSValue.int 7)).calls
      = (js_swift_trampoline (some cb0) ctx0 (JSValue.bool true) 0 [] (JSValue.int 7)).calls
    ∧ js_swift_trampoline_specCalls (some cb0) ctx0 JSValue.null 0 [] (JSValue.int 7)
      ≠ js_swift_trampoline_specCalls (some cb0) ctx0 (JSValue.bool true) 0 [] (JSValue.int 7) := by
  constructor
  · rfl
  · intro h
    simpa [js_swift_trampoline_specCalls] using h

/-- Claim C1, amended: with a callback registered, invoking the trampoline
on the params minted for identifier i dispatches to the callback exactly
once, passing exactly (opaque pointer, i, argc, argv) — the four arguments
of the C callback type, without the receiver — and returns the callback
result unmodified. -/
theorem C1_dispatch (cb : MQJSNativeCallback) (ctx : JSContext)
    (this_val : JSValue) (argc : Nat) (argv : List JSValue) (i : Int)
    (h1 : -(2 ^ 31) ≤ i) (h2 : i < 2 ^ 31) :
    paramsOf (mqjs_new_native_function ctx i) = some (JS_NewInt32 ctx i)
    ∧ (js_swift_trampoline (some cb) ctx this_val argc argv (JS_NewInt32 ctx i)).calls
        = [⟨JS_GetContextOpaquePtr ctx, i, argc, argv⟩]
    ∧ (js_swift_trampoline (some cb) ctx this_val argc argv (JS_NewInt32 ctx i)).ret
        = cb (JS_GetContextOpaquePtr ctx) i argc argv := by
  have hid : get_function_id_from_params ctx (JS_NewInt32 ctx i) = i := by
    have hwrap : toInt32 i = i := toInt32_eq_self i h1 h2
    simp [get_function_id_from_params, JS_NewInt32, JS_ToInt32, hwrap]
  refine ⟨rfl, ?_, ?_⟩
  · simp [js_swift_trampoline, hid]
  · simp [js_swift_trampoline, hid]

/-- Claim C1, witness at identifier 9 with two arguments. -/
theorem C1_dispatch_witness :
    (js_swift_trampoline (some cb0) ctx0 JSValue.null 2
        [JSValue.int 1, JSValue.int 2] (JS_NewInt32 ctx0 9)).calls
      = [⟨JS_GetContextOpaquePtr ctx0, 9, 2, [JSValue.int 1, JSValue.int 2]⟩] :=
  (C1_dispatch cb0 ctx0 JSValue.null 2 [JSValue.int 1, JSValue.int 2] 9
    (by norm_num) (by norm_num)).2.1

/-- Claim C2: with no callback registered, the trampoline returns the
exception sentinel, records a pending internal-error exception with message
"Native callback not initialized", and performs no callback dispatch. -/
theorem C2_unregistered_internal_error (ctx : JSContext) (this_val : JSValue)
    (argc : Nat) (argv : List JSValue) (params : JSValue) :
    (js_swift_trampoline none ctx this_val argc argv params).ret = JSValue.exception
    ∧ (js_swift_trampoline none ctx this_val argc argv params).ctx.pendingException
        = some ⟨ErrorKind.internalError, "Native callback not initialized"⟩
    ∧ (js_swift_trampoline none ctx this_val argc argv params).calls = [] :=
  ⟨rfl, rfl, rfl⟩

/-- Claim C3: for every in-range 32-bit identifier i, the params value
embedded by `mqjs_new_native_function` decodes back to i via
`get_function_id_from_params`. -/
theorem C3_id_roundtrip (ctx : JSContext) (i : Int)
    (h1 : -(2 ^ 31) ≤ i) (h2 : i < 2 ^ 31) :
    (paramsOf (mqjs_new_native_function ctx i)).map (get_function_id_from_params ctx)
      = some i := by
  have hwrap : toInt32 i = i := toInt32_eq_self i h1 h2
  simp [paramsOf, mqjs_new_native_function, JS_NewCFunctionParams, JS_NewInt32,
    get_function_id_from_params, JS_ToInt32, hwrap]

/-- Claim C3, witness at identifier 12345. -/
theorem C3_id_roundtrip_witness :
    (paramsOf (mqjs_new_native_function ctx0 12345)).map (get_function_id_from_params ctx0)
      = some 12345 :=
  C3_id_roundtrip ctx0 12345 (by norm_num) (by norm_num)

/-- Claim C4, counterexample: the claim says identifier decoding and state
pointer recovery happen even on calls with no callback registered. On a
concrete unregistered invocation, neither the decode event nor the
pointer-read event occurs. -/
theorem C4_no_decode_when_unregistered :
    TrEvent.decodeId ∉ (js_swift_trampoline none ctx0 JSValue.null 0 [] (JSValue.int 0)).events
    ∧ TrEvent.readOpaquePtr
        ∉ (js_swift_trampoline none ctx0 JSValue.null 0 [] (JSValue.int 0)).events := by
  decide

/-- Claim C4, amended: on every invocation, the registered-callback check is
performed first; when no callback is registered, the trampoline returns
immediately, and neither the identifier decode nor the pointer recovery
occurs; when a callback is registered, the steps run in the order check,
decode, pointer recovery, dispatch. -/
theorem C4_check_runs_first (ctx : JSContext) (this_val : JSValue) (argc : Nat)
    (argv : List JSValue) (params : JSValue) :
    (js_swift_trampoline none ctx this_val argc argv params).events
      = [TrEvent.checkCallback]
    ∧ ∀ cb : MQJSNativeCallback,
        (js_swift_trampoline (some cb) ctx this_val argc argv params).events
          = [TrEvent.checkCallback, TrEvent.decodeId, TrEvent.readOpaquePtr,
              TrEvent.dispatch] :=
  ⟨rfl, fun _ => rfl⟩

/-- Claim C5: registration is last-write-wins: after setting cb1 and then
cb2, the slot holds cb2 and a subsequent trampoline invocation returns what
cb2 produces on the dispatched arguments. -/
theorem C5_last_write_wins (cb1 cb2 : MQJSNativeCallback) (s : SysState)
    (this_val : JSValue) (argc : Nat) (argv : List JSValue) (params : JSValue) :
    (runOps s [Op.setCallback (some cb1), Op.setCallback (some cb2)]).g_native_callback
      = some cb2
    ∧ (js_swift_trampoline
        (runOps s [Op.setCallback (some cb1), Op.setCallback (some cb2)]).g_native_callback
        (runOps s [Op.setCallback (some cb1), Op.setCallback (some cb2)]).ctx
        this_val argc argv params).ret
      = cb2 (JS_GetContextOpaquePtr s.ctx) (get_function_id_from_params s.ctx params)
          argc argv :=
  ⟨rfl, rfl⟩

/-- Claim C6, counterexample: from a registered state, calling
`mqjs_set_native_callback` with NULL transitions the slot back to the
unregistered state, so registered is not terminal under every argument. -/
theorem C6_null_resets_registration :
    registered0.g_native_callback.isSome = true
    ∧ (runOps registered0 [Op.setCallback none]).g_native_callback.isSome = false :=
  ⟨rfl, rfl⟩

/-- Claim C6, amended: the slot has exactly the two states registered and
unregistered, and once registered it stays registered under every sequence
of bridge operations that never calls `set_dispatch_callback` with NULL. -/
theorem C6_registered_stable_without_null (s : SysState) (ops : List Op)
    (hreg : s.g_native_callback.isSome = true)
    (hops : ops.all (fun op => !op.resetsCallback) = true) :
    (runOps s ops).g_native_callback.isSome = true := by
  induction ops generalizing s with
  | nil => exact hreg
  | cons op rest ih =>
      rw [List.all_cons] at hops
      have hop : op.resetsCallback = false := by
        have := (Bool.and_eq_true _ _).mp hops
        simpa using this.1
      have hrest : rest.all (fun op => !op.resetsCallback) = true :=
        ((Bool.and_eq_true _ _).mp hops).2
      exact ih (runOp s op).state (runOp_preserves_registered s op hreg hop) hrest

/-- Claim C6, witness: a registered state stays registered across a
re-registration and a mint. -/
theorem C6_registered_stable_witness :
    (runOps registered0 [Op.setCallback (some cb0), Op.mint 3]).g_native_callback.isSome
      = true :=
  C6_registered_stable_without_null registered0 [Op.setCallback (some cb0), Op.mint 3]
    rfl rfl

/-- Claim C7: minting a native function leaves the bridge-visible state (the
callback slot and the context, including its state pointer) unchanged,
performs no callback dispatch, and returns exactly the C-function value at
the trampoline index with the encoded identifier as its bound params. -/
theorem C7_mint_is_pure (s : SysState) (function_id : Int) :
    (runOp s (Op.mint function_id)).state = s
    ∧ (runOp s (Op.mint function_id)).calls = []
    ∧ (runOp s (Op.mint function_id)).ret
        = some (JSValue.cfunction mqjs_get_swift_trampoline_index
            (JS_NewInt32 s.ctx function_id)) :=
  ⟨rfl, rfl, rfl⟩

/-- Claim C8: after setting the context state pointer to p, any sequence of
bridge operations containing no further pointer write (mints and trampoline
invocations included, registered or not) leaves the getter returning
exactly p. -/
theorem C8_ptr_stable (s : SysState) (p : Ptr) (ops : List Op)
    (hops : ops.all (fun op => !op.writesOpaquePtr) = true) :
    mqjs_get_context_opaque_ptr (runOps (runOp s (Op.setOpaquePtr p)).state ops).ctx
      = p := by
  show (runOps (runOp s (Op.setOpaquePtr p)).state ops).ctx.opaquePtr = p
  rw [runOps_preserves_ptr ops (runOp s (Op.setOpaquePtr p)).state hops]
  rfl

/-- Claim C8, witness: the state pointer survives a mint and an unregistered
trampoline invocation. -/
theorem C8_ptr_stable_witness :
    mqjs_get_context_opaque_ptr (runOps (runOp sys0 (Op.setOpaquePtr 9)).state
      [Op.mint 3, Op.invoke JSValue.null 0 [] (JSValue.int 3)]).ctx = 9 :=
  C8_ptr_stable sys0 9 [Op.mint 3, Op.invoke JSValue.null 0 [] (JSValue.int 3)] rfl

/-- Claim C9: the trampoline index accessor returns the constant 147, and
every minted native function is bound to exactly that table index. -/
theorem C9_single_trampoline_index (ctx : JSContext) (function_id : Int) :
    mqjs_get_swift_trampoline_index = 147
    ∧ funcIdxOf (mqjs_new_native_function ctx function_id) = some 147 :=
  ⟨rfl, rfl⟩

/-- Claim C10: the three stub standard-library functions unconditionally
return the exception sentinel with a pending reference-error exception
carrying their respective messages, for every context, receiver, and
argument list — never a success value. -/
theorem C10_stubs_always_throw (ctx : JSContext) (this_val : JSValue)
    (argc : Nat) (argv : List JSValue) :
    js_load ctx this_val argc argv
      = (JSValue.exception,
          { ctx with pendingException := some ⟨ErrorKind.referenceError, "load() not supported"⟩ })
    ∧ js_setTimeout ctx this_val argc argv
      = (JSValue.exception,
          { ctx with pendingException := some ⟨ErrorKind.referenceError, "setTimeout() not supported"⟩ })
    ∧ js_clearTimeout ctx this_val argc argv
      = (JSValue.exception,
          { ctx with pendingException := some ⟨ErrorKind.referenceError, "clearTimeout() not supported"⟩ }) :=
  ⟨rfl, rfl, rfl⟩
